import Mathlib

/-!
Shallow embedding of the leader-image configuration system from
`ui/shell/leader-select/custom-leader-config.js`: the leader registry
(`registerImageLeader`), the path inference engine (`tryInferStatePath`),
the state fallback resolver (`getImagePath`), the relationship classifier
(`getDiplomacyInitialState`) and the shared-store persistence
(`persistSharedRegistry`).

JavaScript objects are modelled as association lists, JS strings as Lean
`String`, and the mutable module-level state (registry, inference cache,
localStorage) as an explicit `SysState` record threaded through the
operations.
-/

namespace LeaderConfig

/-- JS value that may appear in the `imagePath` field of a registration
config: a string, or any non-string value (number, null, bool, object). -/
inductive ImgVal where
  | istr (s : String)
  | inonstr
deriving DecidableEq

/-- JS number as seen by the register-time numeric validation: a finite
number (value abstracted to an integer), NaN, an infinity, or a
non-number value. -/
inductive NumVal where
  | num (v : Int)
  | nanv
  | infv
  | notnum
deriving DecidableEq

/-- Per-panel geometry override object: the three numeric fields, each
possibly absent (JS `undefined`). -/
structure PanelObj where
  widthMultiplier : Option NumVal
  leftOffsetMultiplier : Option NumVal
  topOffsetMultiplier : Option NumVal
deriving DecidableEq

/-- Value stored under a key of `displayOverrides`: a panel-config object
or any non-object value. -/
inductive PanelVal where
  | pObj (p : PanelObj)
  | pNotObj
deriving DecidableEq

/-- JS value of the `displayOverrides` field: an object (association list
of panel keys) or a non-object (including null). -/
inductive DOVal where
  | doObj (l : List (String × PanelVal))
  | doNotObj
deriving DecidableEq

/-- JS value of the `diplomacyStates` field: an object mapping state keys
to string paths, or a non-object (including null). -/
inductive DSVal where
  | dsObj (l : List (String × String))
  | dsNotObj
deriving DecidableEq

/-- Raw config object passed to `registerImageLeader` (object form);
every field may be absent. -/
structure RawObj where
  imagePath : Option ImgVal
  autoInferPaths : Option Bool
  diplomacyStates : Option DSVal
  displayOverrides : Option DOVal
deriving DecidableEq

/-- Second argument of `registerImageLeader`: a string (shorthand for the
base path), an object, or any other JS value (null, number, undefined,
bool) — the latter are all rejected. -/
inductive JsConfig where
  | jstr (s : String)
  | jobj (o : RawObj)
  | jother
deriving DecidableEq

/-- Config as stored in `REGISTERED_IMAGE_LEADERS` after the validation in
`registerImageLeader` has run: `imagePath` is known to be a string. -/
structure StoredConfig where
  imagePath : String
  autoInferPaths : Option Bool
  diplomacyStates : Option (List (String × String))
  displayOverrides : Option (List (String × PanelVal))
deriving DecidableEq

/-- The in-memory registry `REGISTERED_IMAGE_LEADERS`. -/
def Registry : Type := String → Option StoredConfig

/-- The inference cache `AUTO_INFERRED_PATH_CACHE`, keyed by the string
`leaderID ++ "_" ++ state`. -/
def Cache : Type := String → Option String

/-- Whole mutable state of the module: registry, inference cache, and the
shared localStorage slot under `SHARED_REGISTRY_STORAGE_KEY` (modelled as
the parsed registry snapshot it holds, if any). -/
structure SysState where
  registry : Registry
  cache : Cache
  store : Option Registry

/-- Behaviour of localStorage during a persist: available and working,
absent (`typeof localStorage === "undefined"`), or `setItem` throwing. -/
inductive StorageMode where
  | ok
  | unavailable
  | throwing
deriving DecidableEq

/-- The `AUTO_PORTRAIT_SUFFIX_TEMPLATES` table. -/
def AUTO_PORTRAIT_SUFFIX_TEMPLATES : List (String × List String) :=
  [("declaring_war", ["_angry", "_hostile", "_war", "_declaring_war"]),
   ("hostile", ["_angry", "_hostile"]),
   ("friendly", ["_happy", "_friendly", "_smile"]),
   ("defeated", ["_defeated", "_sad", "_lose"]),
   ("accepting_peace", ["_peace", "_happy", "_friendly"]),
   ("rejecting_peace", ["_angry", "_hostile", "_reject"]),
   ("response_positive", ["_happy", "_friendly", "_positive"]),
   ("response_negative", ["_angry", "_hostile", "_negative"]),
   ("meeting", ["_meeting", "_neutral"]),
   ("neutral", [])]

/-- The `stateFallbackChains` table defined inside `getImagePath`. -/
def stateFallbackChains : List (String × List String) :=
  [("declaring_war", ["declaring_war", "hostile", "neutral"]),
   ("defeated", ["defeated", "hostile", "neutral"]),
   ("accepting_peace", ["accepting_peace", "friendly", "neutral"]),
   ("rejecting_peace", ["rejecting_peace", "hostile", "neutral"]),
   ("response_positive", ["response_positive", "friendly", "neutral"]),
   ("response_negative", ["response_negative", "hostile", "neutral"]),
   ("meeting", ["meeting", "neutral"]),
   ("friendly", ["friendly", "neutral"]),
   ("hostile", ["hostile", "neutral"]),
   ("neutral", ["neutral"])]

/-- Fallback chain for a query state:
`stateFallbackChains[state] || [state, "neutral"]`. -/
def chainOf (state : String) : List String :=
  (List.lookup state stateFallbackChains).getD [state, "neutral"]

/-- The `validStates` list used by registration-time validation of
`diplomacyStates` keys. -/
def validStates : List String :=
  ["neutral", "friendly", "hostile",
   "response_positive", "response_negative",
   "meeting", "declaring_war", "defeated",
   "accepting_peace", "rejecting_peace"]

/-- The `validPanels` list used by registration-time validation of
`displayOverrides` keys. -/
def validPanels : List String :=
  ["leader-select", "setup-panels", "diplomacy-left", "diplomacy-right"]

/-- Index of the last occurrence of a character in a char list
(JS `String.prototype.lastIndexOf`, with `none` for `-1`). -/
def lastIdxOf (c : Char) : List Char → Option Nat
  | [] => none
  | x :: xs =>
    match lastIdxOf c xs with
    | some i => some (i + 1)
    | none => if x == c then some 0 else none

/-- The `isImageLeader(leaderID)` check. -/
def isImageLeader (reg : Registry) (leaderID : String) : Bool :=
  if leaderID = "" ∨ leaderID = "RANDOM" then false
  else (reg leaderID).isSome

/-- Cache-independent part of `tryInferStatePath` (lines after the cache
lookup): suffix-template lookup, base-path parsing at the last `/` and
last `.`, candidate construction, and the `autoInferPaths === false`
check; returns the first candidate path. -/
def inferCandidate (reg : Registry) (leaderID : String) (b : String)
    (state : String) : Option String :=
  match List.lookup state AUTO_PORTRAIT_SUFFIX_TEMPLATES with
  | none => none
  | some suffixTemplates =>
    if suffixTemplates.isEmpty then none
    else
      match lastIdxOf '/' b.data, lastIdxOf '.' b.data with
      | some lastSlashIndex, some lastDotIndex =>
        if lastDotIndex ≤ lastSlashIndex then none
        else
          let directory := String.mk (b.data.take (lastSlashIndex + 1))
          let fileName := String.mk
            ((b.data.drop (lastSlashIndex + 1)).take
              (lastDotIndex - (lastSlashIndex + 1)))
          let extension := String.mk (b.data.drop lastDotIndex)
          let candidatePaths := suffixTemplates.map
            (fun suffix => directory ++ fileName ++ suffix ++ extension)
          if (match reg leaderID with
              | some rc => rc.autoInferPaths == some false
              | none => false) then none
          else candidatePaths.head?
      | _, _ => none

/-- The `tryInferStatePath(leaderID, basePath, state)` function: guard on
falsy arguments, cache lookup under key `leaderID ++ "_" ++ state`, then
the pure candidate computation, caching a successful result. Returns the
inferred path (or `none`) together with the possibly-updated cache. -/
def tryInferStatePath (reg : Registry) (cache : Cache) (leaderID : String)
    (basePath : Option String) (state : String) : Option String × Cache :=
  match basePath with
  | none => (none, cache)
  | some b =>
    if b = "" ∨ state = "" then (none, cache)
    else
      match cache (leaderID ++ "_" ++ state) with
      | some v => (some v, cache)
      | none =>
        match inferCandidate reg leaderID b state with
        | some inferredPath =>
          (some inferredPath,
           fun k => if k = leaderID ++ "_" ++ state then some inferredPath
                    else cache k)
        | none => (none, cache)

/-- Explicit-state hit at one chain link: the truthy check
`registeredConfig.diplomacyStates && registeredConfig.diplomacyStates[s]`
of `getImagePath`. -/
def explicitHit (cfg : StoredConfig) (s : String) : Option String :=
  match cfg.diplomacyStates with
  | none => none
  | some ds =>
    match List.lookup s ds with
    | none => none
    | some p => if p = "" then none else some p

/-- Loop body of `getImagePath`: walk the fallback chain, trying at each
link first the explicit configuration, then the inference engine, and
fall back to the base path when the chain is exhausted. -/
def walkChain (reg : Registry) (leaderID : String) (cfg : StoredConfig)
    (basePath : Option String) : Cache → List String → Option String × Cache
  | cache, [] => (basePath, cache)
  | cache, fallbackState :: rest =>
    match explicitHit cfg fallbackState with
    | some p => (some p, cache)
    | none =>
      match tryInferStatePath reg cache leaderID basePath fallbackState with
      | (some p, c) => (some p, c)
      | (none, c) => walkChain reg leaderID cfg basePath c rest

/-- The `getImagePath(leaderID, state)` resolver. The optional `state`
argument is `none` for a JS `null`/omitted state; `some ""` behaves like
`null` because of the falsy check `if (!state)`. -/
def getImagePath (reg : Registry) (cache : Cache) (leaderID : String)
    (state : Option String) : Option String × Cache :=
  if isImageLeader reg leaderID = false then (none, cache)
  else
    match reg leaderID with
    | none => (none, cache)
    | some registeredConfig =>
      let basePath :=
        if registeredConfig.imagePath = "" then none
        else some registeredConfig.imagePath
      match state with
      | none => (basePath, cache)
      | some s =>
        if s = "" then (basePath, cache)
        else walkChain reg leaderID registeredConfig basePath cache (chainOf s)

/-- Numeric-field validation of a panel override: a field survives iff it
is a finite, non-NaN number (`delete panelConfig.widthMultiplier`
otherwise); an absent field stays absent. -/
def keepNum : Option NumVal → Option NumVal
  | some (NumVal.num v) => some (NumVal.num v)
  | some _ => none
  | none => none

/-- Validation of one panel-override object: each of the three numeric
fields is dropped when invalid. -/
def normPanel (p : PanelObj) : PanelObj :=
  { widthMultiplier := keepNum p.widthMultiplier,
    leftOffsetMultiplier := keepNum p.leftOffsetMultiplier,
    topOffsetMultiplier := keepNum p.topOffsetMultiplier }

/-- Validation of one `displayOverrides` entry: an unrecognized panel key
or a non-object panel config is warned about and left as-is (`continue`);
a recognized object-valued entry has its numeric fields validated in
place. -/
def normOverrideEntry : String × PanelVal → String × PanelVal
  | (k, v) =>
    if k ∈ validPanels then
      match v with
      | PanelVal.pObj p => (k, PanelVal.pObj (normPanel p))
      | PanelVal.pNotObj => (k, v)
    else (k, v)

/-- Registration-time pass over `displayOverrides`. No entry is ever
removed. -/
def normOverrides (l : List (String × PanelVal)) : List (String × PanelVal) :=
  l.map normOverrideEntry

/-- Validation of one `diplomacyStates` entry: an unrecognized state key
is warned about and left as-is (`continue`); a recognized key whose value
is the empty string is deleted. -/
def normStateEntry : String × String → Option (String × String)
  | (k, v) =>
    if k ∈ validStates then
      (if v = "" then none else some (k, v))
    else some (k, v)

/-- Registration-time pass over `diplomacyStates`. -/
def normStates (l : List (String × String)) : List (String × String) :=
  l.filterMap normStateEntry

/-- Validation body of `registerImageLeader` for the object form of the
config: checks `imagePath`, then `displayOverrides`, then
`diplomacyStates`, in source order; returns the config as it would be
stored, or `none` when registration is rejected. -/
def validateObj (o : RawObj) : Option StoredConfig :=
  match o.imagePath with
  | some (ImgVal.istr ip) =>
    if ip = "" then none
    else
      match o.displayOverrides with
      | some DOVal.doNotObj => none
      | dov =>
        match o.diplomacyStates with
        | some DSVal.dsNotObj => none
        | dsv =>
          some { imagePath := ip,
                 autoInferPaths := o.autoInferPaths,
                 diplomacyStates :=
                   match dsv with
                   | some (DSVal.dsObj l) => some (normStates l)
                   | _ => none,
                 displayOverrides :=
                   match dov with
                   | some (DOVal.doObj l) => some (normOverrides l)
                   | _ => none }
  | _ => none

/-- Full validation of `registerImageLeader`'s arguments: the leaderID
guard, the string-shorthand conversion, and the object validation. -/
def registerValidate (leaderID : String) (config : JsConfig) :
    Option StoredConfig :=
  if leaderID = "" ∨ leaderID = "RANDOM" then none
  else
    match config with
    | JsConfig.jstr s =>
      validateObj { imagePath := some (ImgVal.istr s),
                    autoInferPaths := none,
                    diplomacyStates := none,
                    displayOverrides := none }
    | JsConfig.jobj o => validateObj o
    | JsConfig.jother => none

/-- The `persistSharedRegistry()` call: writes the whole registry to the
shared store when localStorage works; returns with no state change when
localStorage is undefined or `setItem` throws (the exception is caught
and logged). -/
def persistSharedRegistry (mode : StorageMode) (st : SysState) : SysState :=
  match mode with
  | StorageMode.ok => { st with store := some st.registry }
  | StorageMode.unavailable => st
  | StorageMode.throwing => st

/-- The `registerImageLeader(leaderID, config)` operation: on successful
validation the stored config replaces any previous entry for `leaderID`
and the registry is persisted; on rejection the state is untouched and
`false` is returned. -/
def registerImageLeader (mode : StorageMode) (st : SysState)
    (leaderID : String) (config : JsConfig) : Bool × SysState :=
  match registerValidate leaderID config with
  | none => (false, st)
  | some stored =>
    let st1 : SysState :=
      { st with registry :=
          fun k => if k = leaderID then some stored else st.registry k }
    (true, persistSharedRegistry mode st1)

/-- Initial module state: empty registry, empty inference cache, nothing
persisted. -/
def emptyState : SysState :=
  { registry := fun _ => none, cache := fun _ => none, store := none }

/-- Whether the pattern list occurs at the head of the haystack list. -/
def headMatches : List Char → List Char → Bool
  | _, [] => true
  | [], _ :: _ => false
  | h :: hs, p :: ps => h == p && headMatches hs ps

/-- Whether the pattern list occurs anywhere inside the haystack list
(JS `String.prototype.includes`). -/
def containsSub : List Char → List Char → Bool
  | hay, pat =>
    headMatches hay pat ||
      (match hay with
       | [] => false
       | _ :: hs => containsSub hs pat)

/-- JS `haystack.includes(needle)` on strings. -/
def jsIncludes (hay needle : String) : Bool :=
  containsSub hay.data needle.data

/-- The `getDiplomacyInitialState(relationshipEnum, isAtWar)` classifier.
The relationship signal is its textual representation
(`relationshipEnum?.toString()`), with `none` standing for a JS
null/undefined signal (which the code turns into `""`). -/
def getDiplomacyInitialState (relationshipEnum : Option String)
    (isAtWar : Bool) : String :=
  if isAtWar then "hostile"
  else
    let relationshipStr := relationshipEnum.getD ""
    if jsIncludes relationshipStr "HOSTILE" ∨
       jsIncludes relationshipStr "UNFRIENDLY" then "hostile"
    else if jsIncludes relationshipStr "FRIENDLY" ∨
            jsIncludes relationshipStr "HELPFUL" then "friendly"
    else "neutral"

/-- Answer produced at a single link of the fallback chain: the explicit
per-state path when configured (tier 1), else the inference engine's
answer (tier 2). -/
def linkHit (reg : Registry) (cache : Cache) (leaderID : String)
    (cfg : StoredConfig) (basePath : Option String) (s : String) :
    Option String :=
  match explicitHit cfg s with
  | some p => some p
  | none => (tryInferStatePath reg cache leaderID basePath s).1

/-- First hit along a fallback chain, with the base path as the final
fallback when no link hits. -/
def firstHitOr (reg : Registry) (cache : Cache) (leaderID : String)
    (cfg : StoredConfig) (basePath : Option String) (chain : List String) :
    Option String :=
  match chain.findSome? (linkHit reg cache leaderID cfg basePath) with
  | some p => some p
  | none => basePath

/-- Inputs on which `registerImageLeader` rejects before looking at any
optional field: bad leaderID, non-string non-object config, or a
missing/empty/non-string base image path. -/
def badBaseInput (leaderID : String) (config : JsConfig) : Bool :=
  leaderID == "" || leaderID == "RANDOM" ||
  (match config with
   | JsConfig.jother => true
   | JsConfig.jstr s => s == ""
   | JsConfig.jobj o =>
     match o.imagePath with
     | some (ImgVal.istr s) => s == ""
     | _ => true)

/-- State after the spec's example registration
`register("LEADER_YUNI", "fs://x/leader.png")` from a fresh module. -/
def yuniState : SysState :=
  (registerImageLeader StorageMode.ok emptyState "LEADER_YUNI"
    (JsConfig.jstr "fs://x/leader.png")).2

/-- Registration config carrying a `diplomacyStates` key outside the ten
recognized state names. -/
def weirdKeyConfig : JsConfig :=
  JsConfig.jobj
    { imagePath := some (ImgVal.istr "b/p.png"),
      autoInferPaths := none,
      diplomacyStates := some (DSVal.dsObj [("weird_state", "w.png")]),
      displayOverrides := none }

/-- State after registering `weirdKeyConfig` under "LEADER_B". -/
def weirdKeyState : SysState :=
  (registerImageLeader StorageMode.ok emptyState "LEADER_B" weirdKeyConfig).2

/-- Scenario for the stale-cache behaviour of `autoInferPaths`: register
"LEADER_A" with inference enabled. -/
def staleA0 : SysState :=
  (registerImageLeader StorageMode.ok emptyState "LEADER_A"
    (JsConfig.jstr "d/p.png")).2

/-- Second step: one resolution of the `hostile` state populates the
inference cache. -/
def staleA1 : SysState :=
  { staleA0 with
    cache := (getImagePath staleA0.registry staleA0.cache "LEADER_A"
      (some "hostile")).2 }

/-- Third step: re-register "LEADER_A" with `autoInferPaths: false`; the
cache entry written in step two survives. -/
def staleA2 : SysState :=
  (registerImageLeader StorageMode.ok staleA1 "LEADER_A"
    (JsConfig.jobj
      { imagePath := some (ImgVal.istr "d/p.png"),
        autoInferPaths := some false,
        diplomacyStates := none,
        displayOverrides := none })).2

/-- Scenario for the stale-cache behaviour under a base-path change:
register "LEADER_C" with base path "a/b.png". -/
def staleC0 : SysState :=
  (registerImageLeader StorageMode.ok emptyState "LEADER_C"
    (JsConfig.jstr "a/b.png")).2

/-- Second step: one resolution of the `hostile` state populates the
inference cache from base path "a/b.png". -/
def staleC1 : SysState :=
  { staleC0 with
    cache := (getImagePath staleC0.registry staleC0.cache "LEADER_C"
      (some "hostile")).2 }

/-- Third step: re-register "LEADER_C" with a different base path; the
cache entry derived from the old base path survives. -/
def staleC2 : SysState :=
  (registerImageLeader StorageMode.ok staleC1 "LEADER_C"
    (JsConfig.jstr "c/d.png")).2

/-- Registry holding one leader whose config disables path inference. -/
def zDisabledReg : Registry :=
  fun k =>
    if k = "LEADER_Z" then
      some { imagePath := "z/p.png", autoInferPaths := some false,
             diplomacyStates := none, displayOverrides := none }
    else none

/-- When the inference engine misses, the cache is left untouched. -/
theorem tryInfer_miss_snd (reg : Registry) (cache : Cache) (L : String)
    (bp : Option String) (s : String)
    (h : (tryInferStatePath reg cache L bp s).1 = none) :
    (tryInferStatePath reg cache L bp s).2 = cache := by
  cases bp with
  | none => rfl
  | some b =>
    by_cases hb : b = "" ∨ s = ""
    · simp [tryInferStatePath, hb]
    · cases hc : cache (L ++ "_" ++ s) with
      | some v => exfalso; simp [tryInferStatePath, hb, hc] at h
      | none =>
        cases hi : inferCandidate reg L b s with
        | some ip => exfalso; simp [tryInferStatePath, hb, hc, hi] at h
        | none => simp [tryInferStatePath, hb, hc, hi]

/-- Rerunning the inference engine on the cache it just produced returns
the same hit and leaves that cache unchanged. -/
theorem tryInfer_hit_rerun (reg : Registry) (cache : Cache) (L : String)
    (bp : Option String) (s p : String) (c : Cache)
    (h : tryInferStatePath reg cache L bp s = (some p, c)) :
    tryInferStatePath reg c L bp s = (some p, c) := by
  cases bp with
  | none => exfalso; simp [tryInferStatePath] at h
  | some b =>
    by_cases hb : b = "" ∨ s = ""
    · exfalso; simp [tryInferStatePath, hb] at h
    · cases hc : cache (L ++ "_" ++ s) with
      | some v =>
        have h2 := h
        simp only [tryInferStatePath, hc, if_neg hb, Prod.mk.injEq] at h2
        obtain ⟨hv, hcc⟩ := h2
        subst hcc
        simp [tryInferStatePath, hb, hc, hv]
      | none =>
        cases hi : inferCandidate reg L b s with
        | some ip =>
          have h2 := h
          simp only [tryInferStatePath, hc, hi, if_neg hb,
            Prod.mk.injEq] at h2
          obtain ⟨hv, hcc⟩ := h2
          subst hcc
          simp only [Option.some.injEq] at hv
          subst hv
          simp [tryInferStatePath, hb]
        | none => exfalso; simp [tryInferStatePath, hb, hc, hi] at h

/-- The inference engine changes the cache at most at its own cache key. -/
theorem tryInfer_frame (reg : Registry) (cache : Cache) (L : String)
    (bp : Option String) (s : String) (k : String)
    (hk : k ≠ L ++ "_" ++ s) :
    (tryInferStatePath reg cache L bp s).2 k = cache k := by
  cases bp with
  | none => rfl
  | some b =>
    by_cases hb : b = "" ∨ s = ""
    · simp [tryInferStatePath, hb]
    · cases hc : cache (L ++ "_" ++ s) with
      | some v => simp [tryInferStatePath, hb, hc]
      | none =>
        cases hi : inferCandidate reg L b s with
        | some ip => simp [tryInferStatePath, hb, hc, hi, hk]
        | none => simp [tryInferStatePath, hb, hc, hi]

/-- A missing inference answer stays missing under any cache agreeing at
the relevant cache key, and such a rerun leaves that cache unchanged. -/
theorem tryInfer_miss_congr (reg : Registry) (cache c2 : Cache) (L : String)
    (bp : Option String) (s : String)
    (h : (tryInferStatePath reg cache L bp s).1 = none)
    (hagree : c2 (L ++ "_" ++ s) = cache (L ++ "_" ++ s)) :
    tryInferStatePath reg c2 L bp s = (none, c2) := by
  cases bp with
  | none => rfl
  | some b =>
    by_cases hb : b = "" ∨ s = ""
    · simp [tryInferStatePath, hb]
    · cases hc : cache (L ++ "_" ++ s) with
      | some v => exfalso; simp [tryInferStatePath, hb, hc] at h
      | none =>
        have hc2 : c2 (L ++ "_" ++ s) = none := by rw [hagree, hc]
        cases hi : inferCandidate reg L b s with
        | some ip => exfalso; simp [tryInferStatePath, hb, hc, hi] at h
        | none => simp [tryInferStatePath, hb, hc2, hi]

/-- Value returned by the chain walk: the first link hit (explicit before
inferred, relative to the cache the walk started with), else the base
path. -/
theorem walk_fst (reg : Registry) (L : String) (cfg : StoredConfig)
    (bp : Option String) :
    ∀ (chain : List String) (cache : Cache),
    (walkChain reg L cfg bp cache chain).1 =
      firstHitOr reg cache L cfg bp chain := by
  intro chain
  induction chain with
  | nil => intro cache; rfl
  | cons t rest ih =>
    intro cache
    cases he : explicitHit cfg t with
    | some p =>
      simp [walkChain, firstHitOr, List.findSome?_cons, linkHit, he]
    | none =>
      cases hti : tryInferStatePath reg cache L bp t with
      | mk r c =>
        cases r with
        | some p =>
          simp [walkChain, firstHitOr, List.findSome?_cons, linkHit, he, hti]
        | none =>
          have hcc : c = cache := by
            have hm := tryInfer_miss_snd reg cache L bp t (by rw [hti])
            rw [hti] at hm
            exact hm
          subst hcc
          simp only [walkChain, he, hti]
          rw [ih c]
          simp [firstHitOr, List.findSome?_cons, linkHit, he, hti]

/-- When the base path is a string, the chain walk always produces a
value. -/
theorem walk_fst_isSome (reg : Registry) (L : String) (cfg : StoredConfig)
    (b : String) :
    ∀ (chain : List String) (cache : Cache),
    ((walkChain reg L cfg (some b) cache chain).1).isSome = true := by
  intro chain
  induction chain with
  | nil => intro cache; rfl
  | cons t rest ih =>
    intro cache
    cases he : explicitHit cfg t with
    | some p => simp [walkChain, he]
    | none =>
      cases hti : tryInferStatePath reg cache L (some b) t with
      | mk r c =>
        cases r with
        | some p => simp [walkChain, he, hti]
        | none =>
          simp only [walkChain, he, hti]
          exact ih c

/-- The chain walk changes the cache only at the cache keys of the chain's
links. -/
theorem walk_frame (reg : Registry) (L : String) (cfg : StoredConfig)
    (bp : Option String) :
    ∀ (chain : List String) (cache : Cache) (k : String),
    (∀ t ∈ chain, k ≠ L ++ "_" ++ t) →
    (walkChain reg L cfg bp cache chain).2 k = cache k := by
  intro chain
  induction chain with
  | nil => intro cache k _; rfl
  | cons t rest ih =>
    intro cache k hk
    cases he : explicitHit cfg t with
    | some p => simp [walkChain, he]
    | none =>
      cases hti : tryInferStatePath reg cache L bp t with
      | mk r c =>
        have hfr : c k = cache k := by
          have hm := tryInfer_frame reg cache L bp t k (hk t (by simp))
          rw [hti] at hm
          exact hm
        cases r with
        | some p =>
          simp only [walkChain, he, hti]
          exact hfr
        | none =>
          simp only [walkChain, he, hti]
          rw [ih c k (fun u hu => hk u (by simp [hu]))]
          exact hfr

/-- Cache keys built from the same leader id and distinct states are
distinct. -/
theorem key_ne (L : String) {t u : String} (h : t ≠ u) :
    L ++ "_" ++ t ≠ L ++ "_" ++ u := by
  intro he
  apply h
  have hd := congrArg String.data he
  simp only [String.data_append] at hd
  exact String.ext (List.append_cancel_left hd)

/-- Membership in an association list from a successful lookup. -/
theorem lookup_mem {α β : Type} [BEq α] [LawfulBEq α] (a : α) (b : β) :
    ∀ l : List (α × β), List.lookup a l = some b → (a, b) ∈ l := by
  intro l
  induction l with
  | nil => intro h; exact absurd h (by simp [List.lookup])
  | cons p t ih =>
    intro h
    obtain ⟨k1, v1⟩ := p
    rw [List.lookup] at h
    cases hab : (a == k1) with
    | true =>
      simp only [hab] at h
      have hk : a = k1 := eq_of_beq hab
      have hv : v1 = b := (Option.some.injEq v1 b).mp h
      subst hk
      subst hv
      exact List.mem_cons_self _ _
    | false =>
      simp only [hab] at h
      exact List.mem_cons_of_mem _ (ih h)

/-- Every fallback chain produced by `chainOf` is duplicate-free. -/
theorem chainOf_nodup (s : String) : (chainOf s).Nodup := by
  unfold chainOf
  cases hl : List.lookup s stateFallbackChains with
  | none =>
    have hne : s ≠ "neutral" := by
      intro he
      subst he
      exact absurd hl (by decide)
    simp [List.nodup_cons, hne]
  | some c =>
    have hmem : (s, c) ∈ stateFallbackChains := lookup_mem s c _ hl
    have hall : ∀ p ∈ stateFallbackChains, (Prod.snd p).Nodup := by decide
    exact hall _ hmem

/-- Rerunning the chain walk on the cache it produced returns the same
answer and leaves that cache unchanged, for duplicate-free chains. -/
theorem walk_idem (reg : Registry) (L : String) (cfg : StoredConfig)
    (bp : Option String) :
    ∀ (chain : List String), chain.Nodup → ∀ (cache : Cache),
    walkChain reg L cfg bp ((walkChain reg L cfg bp cache chain).2) chain =
      walkChain reg L cfg bp cache chain := by
  intro chain
  induction chain with
  | nil => intro _ cache; rfl
  | cons t rest ih =>
    intro hnd cache
    obtain ⟨hts, hrest⟩ := List.nodup_cons.mp hnd
    cases he : explicitHit cfg t with
    | some p => simp [walkChain, he]
    | none =>
      cases hti : tryInferStatePath reg cache L bp t with
      | mk r c =>
        cases r with
        | some p =>
          have hre := tryInfer_hit_rerun reg cache L bp t p c hti
          simp [walkChain, he, hti, hre]
        | none =>
          have hcc : c = cache := by
            have hm := tryInfer_miss_snd reg cache L bp t (by rw [hti])
            rw [hti] at hm
            exact hm
          subst hcc
          have hagree : (walkChain reg L cfg bp c rest).2 (L ++ "_" ++ t) =
              c (L ++ "_" ++ t) :=
            walk_frame reg L cfg bp rest c (L ++ "_" ++ t)
              (fun u hu => key_ne L (fun hte => hts (hte ▸ hu)))
          have hmiss := tryInfer_miss_congr reg c
            ((walkChain reg L cfg bp c rest).2) L bp t (by rw [hti]) hagree
          simp only [walkChain, he, hti, hmiss]
          exact ih hrest c

/-- Registration-time validation of `diplomacyStates` does not touch
entries whose key is outside the recognized state-name set. -/
theorem lookup_normStates (k : String) (hk : k ∉ validStates) :
    ∀ l : List (String × String),
    List.lookup k (normStates l) = List.lookup k l := by
  intro l
  induction l with
  | nil => rfl
  | cons p t ih =>
    obtain ⟨k1, v1⟩ := p
    simp only [normStates, List.filterMap_cons] at ih ⊢
    by_cases h1 : k1 ∈ validStates
    · by_cases h2 : v1 = ""
      · have hE : normStateEntry (k1, v1) = none := by
          simp only [normStateEntry]
          rw [if_pos h1, if_pos h2]
        rw [hE]
        have hkk : (k == k1) = false :=
          beq_eq_false_iff_ne.mpr (fun he => hk (he ▸ h1))
        simp only [List.lookup, hkk]
        exact ih
      · have hE : normStateEntry (k1, v1) = some (k1, v1) := by
          simp only [normStateEntry]
          rw [if_pos h1, if_neg h2]
        rw [hE]
        simp only [List.lookup]
        cases hkk : (k == k1) with
        | true => rfl
        | false => exact ih
    · have hE : normStateEntry (k1, v1) = some (k1, v1) := by
        simp only [normStateEntry]
        rw [if_neg h1]
      rw [hE]
      simp only [List.lookup]
      cases hkk : (k == k1) with
      | true => rfl
      | false => exact ih

/-- Registration-time validation of `displayOverrides` does not touch
entries whose key is outside the recognized panel-name set. -/
theorem lookup_normOverrides (k : String) (hk : k ∉ validPanels) :
    ∀ l : List (String × PanelVal),
    List.lookup k (normOverrides l) = List.lookup k l := by
  intro l
  induction l with
  | nil => rfl
  | cons p t ih =>
    obtain ⟨k1, v1⟩ := p
    simp only [normOverrides, List.map_cons] at ih ⊢
    cases hkk : (k == k1) with
    | true =>
      have hke : k = k1 := eq_of_beq hkk
      have h1 : k1 ∉ validPanels := fun hm => hk (hke ▸ hm)
      have hE : normOverrideEntry (k1, v1) = (k1, v1) := by
        simp only [normOverrideEntry]
        rw [if_neg h1]
      rw [hE]
      simp only [List.lookup, hkk]
    | false =>
      have hfst : (normOverrideEntry (k1, v1)).1 = k1 := by
        simp only [normOverrideEntry]
        by_cases h1 : k1 ∈ validPanels
        · rw [if_pos h1]
          cases v1 <;> rfl
        · rw [if_neg h1]
      cases hE : normOverrideEntry (k1, v1) with
      | mk k2 v2 =>
        have hk2 : k2 = k1 := by
          rw [hE] at hfst
          exact hfst
        subst hk2
        simp only [List.lookup, hkk]
        exact ih

/-- When the leader's registered config has `autoInferPaths === false`,
the cache-independent inference computation yields nothing. -/
theorem inferCandidate_disabled (reg : Registry) (L b s : String)
    (cfg : StoredConfig) (hreg : reg L = some cfg)
    (hf : cfg.autoInferPaths = some false) :
    inferCandidate reg L b s = none := by
  unfold inferCandidate
  cases hl : List.lookup s AUTO_PORTRAIT_SUFFIX_TEMPLATES with
  | none => rfl
  | some sufs =>
    by_cases hse : sufs.isEmpty
    · simp [hse]
    · cases hsl : lastIdxOf '/' b.data with
      | none =>
        cases hdt : lastIdxOf '.' b.data <;> simp [hse, hsl, hdt]
      | some i =>
        cases hdt : lastIdxOf '.' b.data with
        | none => simp [hse, hsl, hdt]
        | some j =>
          by_cases hij : j ≤ i
          · simp [hse, hsl, hdt, hij]
          · simp [hse, hsl, hdt, hij, hreg, hf]

/-- When the leader's registered config has `autoInferPaths === false` and
the inference cache has no entry under the call's cache key, the
inference engine returns absent. -/
theorem tryInfer_disabled (reg : Registry) (cache : Cache) (L : String)
    (bp : Option String) (s : String) (cfg : StoredConfig)
    (hreg : reg L = some cfg) (hf : cfg.autoInferPaths = some false)
    (hcache : cache (L ++ "_" ++ s) = none) :
    (tryInferStatePath reg cache L bp s).1 = none := by
  cases bp with
  | none => rfl
  | some b =>
    by_cases hb : b = "" ∨ s = ""
    · simp [tryInferStatePath, hb]
    · simp [tryInferStatePath, hb, hcache,
        inferCandidate_disabled reg L b s cfg hreg hf]

/-- For a registered leader queried with a truthy state string,
`getImagePath` is the chain walk over the state's fallback chain. -/
theorem getImagePath_registered (reg : Registry) (cache : Cache)
    (L : String) (cfg : StoredConfig) (s : String)
    (h1 : L ≠ "") (h2 : L ≠ "RANDOM") (h3 : reg L = some cfg)
    (h4 : s ≠ "") :
    getImagePath reg cache L (some s) =
      walkChain reg L cfg
        (if cfg.imagePath = "" then none else some cfg.imagePath)
        cache (chainOf s) := by
  have hil : isImageLeader reg L = true := by
    simp [isImageLeader, h1, h2, h3]
  simp [getImagePath, hil, h3, h4]

/-- C1: for every registered leader and every truthy query state,
`getImagePath` walks the state's fallback chain — the table's chain for a
recognized state name, the synthesized `[state, "neutral"]` chain
otherwise — and returns the first hit, where the hit at a link is the
explicitly configured path for that link if present and else the inferred
path for that link; a hit at an earlier link wins over anything at a
later link, and the base path is used only when no link hits. -/
theorem C1_chain_order_wins (reg : Registry) (cache : Cache)
    (L : String) (cfg : StoredConfig) (s : String)
    (h1 : L ≠ "") (h2 : L ≠ "RANDOM") (h3 : reg L = some cfg)
    (h4 : s ≠ "") :
    (getImagePath reg cache L (some s)).1 =
      firstHitOr reg cache L cfg
        (if cfg.imagePath = "" then none else some cfg.imagePath)
        (chainOf s) ∧
    (s ∉ validStates → chainOf s = [s, "neutral"]) := by
  constructor
  · rw [getImagePath_registered reg cache L cfg s h1 h2 h3 h4]
    exact walk_fst reg L cfg _ (chainOf s) cache
  · intro hs
    unfold chainOf
    cases hl : List.lookup s stateFallbackChains with
    | none => rfl
    | some c =>
      have hmem : (s, c) ∈ stateFallbackChains := lookup_mem s c _ hl
      have hkeys : ∀ p ∈ stateFallbackChains, p.1 ∈ validStates := by decide
      exact absurd (hkeys _ hmem) hs

/-- Witness for C1 at the example registration and the recognized query
state `declaring_war`. -/
theorem C1_chain_order_wins_witness :
    (getImagePath yuniState.registry yuniState.cache "LEADER_YUNI"
      (some "declaring_war")).1 =
      firstHitOr yuniState.registry yuniState.cache "LEADER_YUNI"
        { imagePath := "fs://x/leader.png", autoInferPaths := none,
          diplomacyStates := none, displayOverrides := none }
        (if ("fs://x/leader.png" : String) = "" then none
         else some "fs://x/leader.png")
        (chainOf "declaring_war") :=
  (C1_chain_order_wins yuniState.registry yuniState.cache "LEADER_YUNI"
    { imagePath := "fs://x/leader.png", autoInferPaths := none,
      diplomacyStates := none, displayOverrides := none }
    "declaring_war" (by decide) (by decide) rfl (by decide)).1

/-- C2: every recognized state name's fallback chain ends in `neutral`
(with `neutral`'s own chain being exactly `["neutral"]`), and for every
registered leader whose base path is a non-empty string, `getImagePath`
returns a non-null value for every query state. -/
theorem C2_fallback_termination :
    (∀ s ∈ validStates, (chainOf s).getLast? = some "neutral") ∧
    chainOf "neutral" = ["neutral"] ∧
    (∀ (reg : Registry) (cache : Cache) (L : String) (cfg : StoredConfig)
       (st : Option String),
       L ≠ "" → L ≠ "RANDOM" → reg L = some cfg → cfg.imagePath ≠ "" →
       ((getImagePath reg cache L st).1).isSome = true) := by
  refine ⟨by decide, rfl, ?_⟩
  intro reg cache L cfg st h1 h2 h3 h4
  have hil : isImageLeader reg L = true := by
    simp [isImageLeader, h1, h2, h3]
  cases st with
  | none => simp [getImagePath, hil, h3, h4]
  | some s =>
    by_cases hs : s = ""
    · simp [getImagePath, hil, h3, h4, hs]
    · rw [getImagePath_registered reg cache L cfg s h1 h2 h3 hs, if_neg h4]
      exact walk_fst_isSome reg L cfg cfg.imagePath (chainOf s) cache

/-- Witness for C2 at a recognized state and at the example
registration. -/
theorem C2_fallback_termination_witness :
    (chainOf "meeting").getLast? = some "neutral" ∧
    ((getImagePath yuniState.registry yuniState.cache "LEADER_YUNI"
      (some "defeated")).1).isSome = true :=
  ⟨C2_fallback_termination.1 "meeting" (by decide),
   C2_fallback_termination.2.2 yuniState.registry yuniState.cache
     "LEADER_YUNI"
     { imagePath := "fs://x/leader.png", autoInferPaths := none,
       diplomacyStates := none, displayOverrides := none }
     (some "defeated") (by decide) (by decide) rfl (by decide)⟩

/-- C3: with no cached entry for the query, `tryInferStatePath` returns
absent for a base path with no separator, no extension dot, or a last dot
not after the last separator, and for a state with an empty or undefined
suffix list; otherwise it returns directory ++ stem ++ first suffix ++
extension, committing to only the first suffix — and in particular, after
`register("LEADER_YUNI", "fs://x/leader.png")`,
`getImagePath("LEADER_YUNI", "declaring_war")` returns
`"fs://x/leader_angry.png"`. -/
theorem C3_first_suffix_inference :
    (∀ (reg : Registry) (cache : Cache) (L b s : String),
       cache (L ++ "_" ++ s) = none →
       (lastIdxOf '/' b.data = none ∨ lastIdxOf '.' b.data = none ∨
        (∀ i j, lastIdxOf '/' b.data = some i →
          lastIdxOf '.' b.data = some j → j ≤ i)) →
       (tryInferStatePath reg cache L (some b) s).1 = none) ∧
    (∀ (reg : Registry) (cache : Cache) (L b s : String),
       cache (L ++ "_" ++ s) = none →
       (List.lookup s AUTO_PORTRAIT_SUFFIX_TEMPLATES = none ∨
        List.lookup s AUTO_PORTRAIT_SUFFIX_TEMPLATES = some []) →
       (tryInferStatePath reg cache L (some b) s).1 = none) ∧
    (∀ (reg : Registry) (cache : Cache) (L b s suf : String)
       (sufs : List String) (i j : Nat),
       b ≠ "" → s ≠ "" →
       cache (L ++ "_" ++ s) = none →
       List.lookup s AUTO_PORTRAIT_SUFFIX_TEMPLATES = some (suf :: sufs) →
       lastIdxOf '/' b.data = some i → lastIdxOf '.' b.data = some j →
       i < j →
       (match reg L with
        | some rc => rc.autoInferPaths == some false
        | none => false) = false →
       (tryInferStatePath reg cache L (some b) s).1 =
         some (String.mk (b.data.take (i + 1)) ++
               String.mk ((b.data.drop (i + 1)).take (j - (i + 1))) ++
               suf ++ String.mk (b.data.drop j))) ∧
    ((registerImageLeader StorageMode.ok emptyState "LEADER_YUNI"
        (JsConfig.jstr "fs://x/leader.png")).1 = true ∧
     (getImagePath yuniState.registry yuniState.cache "LEADER_YUNI"
        (some "declaring_war")).1 = some "fs://x/leader_angry.png") := by
  refine ⟨?_, ?_, ?_, rfl, by decide⟩
  · intro reg cache L b s hcache hmal
    by_cases hb : b = "" ∨ s = ""
    · simp [tryInferStatePath, hb]
    · have hic : inferCandidate reg L b s = none := by
        unfold inferCandidate
        cases hl : List.lookup s AUTO_PORTRAIT_SUFFIX_TEMPLATES with
        | none => rfl
        | some sufs =>
          by_cases hse : sufs.isEmpty
          · simp [hse]
          · rcases hmal with h | h | h
            · cases hdt : lastIdxOf '.' b.data <;> simp [hse, h, hdt]
            · cases hsl : lastIdxOf '/' b.data <;> simp [hse, h, hsl]
            · cases hsl : lastIdxOf '/' b.data with
              | none =>
                cases hdt : lastIdxOf '.' b.data <;> simp [hse, hsl, hdt]
              | some i =>
                cases hdt : lastIdxOf '.' b.data with
                | none => simp [hse, hsl, hdt]
                | some j => simp [hse, hsl, hdt, h i j hsl hdt]
      simp [tryInferStatePath, hb, hcache, hic]
  · intro reg cache L b s hcache hsuf
    by_cases hb : b = "" ∨ s = ""
    · simp [tryInferStatePath, hb]
    · have hic : inferCandidate reg L b s = none := by
        unfold inferCandidate
        rcases hsuf with h | h
        · rw [h]
        · rw [h]
          rfl
      simp [tryInferStatePath, hb, hcache, hic]
  · intro reg cache L b s suf sufs i j hbne hsne hcache hl hsl hdt hlt hdis
    have hb : ¬(b = "" ∨ s = "") := fun hor => hor.elim hbne hsne
    have hic : inferCandidate reg L b s =
        some (String.mk (b.data.take (i + 1)) ++
              String.mk ((b.data.drop (i + 1)).take (j - (i + 1))) ++
              suf ++ String.mk (b.data.drop j)) := by
      unfold inferCandidate
      rw [hl]
      simp only [List.isEmpty_cons, Bool.false_eq_true, if_false, hsl, hdt]
      rw [if_neg (not_le.mpr hlt)]
      simp [hdis, List.map_cons]
    simp [tryInferStatePath, hb, hcache, hic]

/-- Witness for C3: the malformed-path case, the empty-suffix-list case,
and the composed first-suffix case at concrete inputs. -/
theorem C3_first_suffix_inference_witness :
    (tryInferStatePath (fun _ => none) (fun _ => none) "L"
      (some "noslash") "hostile").1 = none ∧
    (tryInferStatePath (fun _ => none) (fun _ => none) "L"
      (some "a/b.png") "neutral").1 = none ∧
    (tryInferStatePath (fun _ => none) (fun _ => none) "L"
      (some "a/b.png") "hostile").1 = some "a/b_angry.png" := by
  refine ⟨C3_first_suffix_inference.1 _ _ "L" "noslash" "hostile" rfl
      (Or.inl (by decide)),
    C3_first_suffix_inference.2.1 _ _ "L" "a/b.png" "neutral" rfl
      (Or.inr (by decide)), ?_⟩
  have h := C3_first_suffix_inference.2.2.1 (fun _ => none) (fun _ => none)
    "L" "a/b.png" "hostile" "_angry" ["_hostile"] 1 3 (by decide)
    (by decide) rfl (by decide) (by decide) (by decide) (by decide) rfl
  rw [h]
  decide

/-- C8: for a registered leader, a null/absent state makes `getImagePath`
return the leader's base path directly, leaving the cache untouched; the
answer does not depend on the explicit state map, the auto-infer flag,
the display overrides or the inference cache, i.e. neither the fallback
chain nor the inference engine is consulted. -/
theorem C8_null_state_basepath (reg : Registry) (cache : Cache)
    (L : String) (cfg : StoredConfig)
    (h1 : L ≠ "") (h2 : L ≠ "RANDOM") (h3 : reg L = some cfg)
    (h4 : cfg.imagePath ≠ "") :
    getImagePath reg cache L none = (some cfg.imagePath, cache) ∧
    (∀ (ds : Option (List (String × String)))
       (ov : Option (List (String × PanelVal))) (aip : Option Bool)
       (cache2 : Cache),
       getImagePath
         (fun k => if k = L then
            some { imagePath := cfg.imagePath, autoInferPaths := aip,
                   diplomacyStates := ds, displayOverrides := ov }
          else reg k)
         cache2 L none = (some cfg.imagePath, cache2)) := by
  constructor
  · have hil : isImageLeader reg L = true := by
      simp [isImageLeader, h1, h2, h3]
    simp [getImagePath, hil, h3, h4]
  · intro ds ov aip cache2
    have hil2 : isImageLeader
        (fun k => if k = L then
          some { imagePath := cfg.imagePath, autoInferPaths := aip,
                 diplomacyStates := ds, displayOverrides := ov }
         else reg k) L = true := by
      simp [isImageLeader, h1, h2]
    simp [getImagePath, hil2, h4]

/-- Witness for C8 at the example registration. -/
theorem C8_null_state_basepath_witness :
    getImagePath yuniState.registry yuniState.cache "LEADER_YUNI" none =
      (some "fs://x/leader.png", yuniState.cache) :=
  (C8_null_state_basepath yuniState.registry yuniState.cache "LEADER_YUNI"
    { imagePath := "fs://x/leader.png", autoInferPaths := none,
      diplomacyStates := none, displayOverrides := none }
    (by decide) (by decide) rfl (by decide)).1

/-- C10: the classifier always answers hostile, friendly or neutral; war
forces hostile regardless of the relationship signal; otherwise the
signal's text is checked for HOSTILE/UNFRIENDLY first, then
FRIENDLY/HELPFUL, with neutral in every other case — and in particular
`classify("PLAYER_RELATIONSHIP_FRIENDLY", false)` is friendly. -/
theorem C10_classifier_buckets (r : Option String) (w : Bool) :
    (getDiplomacyInitialState r w = "hostile" ∨
     getDiplomacyInitialState r w = "friendly" ∨
     getDiplomacyInitialState r w = "neutral") ∧
    (w = true → getDiplomacyInitialState r w = "hostile") ∧
    (w = false →
      (jsIncludes (r.getD "") "HOSTILE" = true ∨
       jsIncludes (r.getD "") "UNFRIENDLY" = true) →
      getDiplomacyInitialState r w = "hostile") ∧
    (w = false →
      ¬(jsIncludes (r.getD "") "HOSTILE" = true ∨
        jsIncludes (r.getD "") "UNFRIENDLY" = true) →
      (jsIncludes (r.getD "") "FRIENDLY" = true ∨
       jsIncludes (r.getD "") "HELPFUL" = true) →
      getDiplomacyInitialState r w = "friendly") ∧
    (w = false →
      ¬(jsIncludes (r.getD "") "HOSTILE" = true ∨
        jsIncludes (r.getD "") "UNFRIENDLY" = true) →
      ¬(jsIncludes (r.getD "") "FRIENDLY" = true ∨
        jsIncludes (r.getD "") "HELPFUL" = true) →
      getDiplomacyInitialState r w = "neutral") ∧
    getDiplomacyInitialState (some "PLAYER_RELATIONSHIP_FRIENDLY") false
      = "friendly" := by
  cases w with
  | true =>
    exact ⟨Or.inl rfl, fun _ => rfl,
      fun h => absurd h (by decide), fun h => absurd h (by decide),
      fun h => absurd h (by decide), by decide⟩
  | false =>
    by_cases hH : jsIncludes (r.getD "") "HOSTILE" = true ∨
        jsIncludes (r.getD "") "UNFRIENDLY" = true
    · have he : getDiplomacyInitialState r false = "hostile" := by
        simp [getDiplomacyInitialState, hH]
      exact ⟨Or.inl he, fun h => absurd h (by decide), fun _ _ => he,
        fun _ hn => absurd hH hn, fun _ hn => absurd hH hn, by decide⟩
    · by_cases hF : jsIncludes (r.getD "") "FRIENDLY" = true ∨
          jsIncludes (r.getD "") "HELPFUL" = true
      · have he : getDiplomacyInitialState r false = "friendly" := by
          simp [getDiplomacyInitialState, hH, hF]
        exact ⟨Or.inr (Or.inl he), fun h => absurd h (by decide),
          fun _ hh => absurd hh hH, fun _ _ _ => he,
          fun _ _ hn => absurd hF hn, by decide⟩
      · have he : getDiplomacyInitialState r false = "neutral" := by
          simp [getDiplomacyInitialState, hH, hF]
        exact ⟨Or.inr (Or.inr he), fun h => absurd h (by decide),
          fun _ hh => absurd hh hH, fun _ _ hf => absurd hf hF,
          fun _ _ _ => he, by decide⟩

/-- Witness for C10 at concrete signals: hostile by substring, hostile by
war, neutral for a null signal. -/
theorem C10_classifier_buckets_witness :
    getDiplomacyInitialState (some "PLAYER_RELATIONSHIP_HOSTILE") false
      = "hostile" ∧
    getDiplomacyInitialState (some "X") true = "hostile" ∧
    getDiplomacyInitialState none false = "neutral" :=
  ⟨(C10_classifier_buckets (some "PLAYER_RELATIONSHIP_HOSTILE")
      false).2.2.1 rfl (Or.inl (by decide)),
   (C10_classifier_buckets (some "X") true).2.1 rfl,
   (C10_classifier_buckets none false).2.2.2.2.1 rfl (by decide)
     (by decide)⟩

/-- C6: registration returns false with no state change when the leader
id is empty or "RANDOM", the config is neither a string nor an object, or
the base image path is missing, empty or not a string. -/
theorem C6_registration_rejects (mode : StorageMode) (st : SysState)
    (L : String) (c : JsConfig) (h : badBaseInput L c = true) :
    registerImageLeader mode st L c = (false, st) := by
  have hv : registerValidate L c = none := by
    by_cases hL : L = "" ∨ L = "RANDOM"
    · simp [registerValidate, hL]
    · cases c with
      | jother => simp [registerValidate, hL]
      | jstr s =>
        simp only [badBaseInput, Bool.or_eq_true, beq_iff_eq] at h
        rcases h with (h | h) | h
        · exact absurd (Or.inl h) hL
        · exact absurd (Or.inr h) hL
        · subst h
          simp [registerValidate, validateObj, hL]
      | jobj o =>
        cases hip : o.imagePath with
        | none => simp [registerValidate, validateObj, hL, hip]
        | some iv =>
          cases iv with
          | inonstr => simp [registerValidate, validateObj, hL, hip]
          | istr s =>
            simp only [badBaseInput, hip, Bool.or_eq_true, beq_iff_eq] at h
            rcases h with (h | h) | h
            · exact absurd (Or.inl h) hL
            · exact absurd (Or.inr h) hL
            · subst h
              simp [registerValidate, validateObj, hL, hip]
  simp [registerImageLeader, hv]

/-- Witness for C6: the four rejecting registrations from the spec. -/
theorem C6_registration_rejects_witness :
    registerImageLeader StorageMode.ok emptyState ""
      (JsConfig.jobj ⟨some (ImgVal.istr "x"), none, none, none⟩)
      = (false, emptyState) ∧
    registerImageLeader StorageMode.ok emptyState "RANDOM"
      (JsConfig.jobj ⟨some (ImgVal.istr "x"), none, none, none⟩)
      = (false, emptyState) ∧
    registerImageLeader StorageMode.ok emptyState "LEADER_X"
      (JsConfig.jobj ⟨none, none, none, none⟩)
      = (false, emptyState) ∧
    registerImageLeader StorageMode.ok emptyState "LEADER_X"
      (JsConfig.jstr "") = (false, emptyState) :=
  ⟨C6_registration_rejects _ _ _ _ (by decide),
   C6_registration_rejects _ _ _ _ (by decide),
   C6_registration_rejects _ _ _ _ (by decide),
   C6_registration_rejects _ _ _ _ (by decide)⟩

/-- C9: a persistence failure (storage unavailable or throwing) is
invisible outside the shared store: the returned flag, the in-memory
registry and the inference cache match a successful persist, the store is
untouched, a successful registration is still present in the registry,
and all subsequent resolution calls behave identically. -/
theorem C9_persistence_failure_isolated (st : SysState) (L : String)
    (c : JsConfig) :
    (registerImageLeader StorageMode.throwing st L c).1 =
      (registerImageLeader StorageMode.ok st L c).1 ∧
    (registerImageLeader StorageMode.unavailable st L c).1 =
      (registerImageLeader StorageMode.ok st L c).1 ∧
    (registerImageLeader StorageMode.throwing st L c).2.registry =
      (registerImageLeader StorageMode.ok st L c).2.registry ∧
    (registerImageLeader StorageMode.throwing st L c).2.cache =
      (registerImageLeader StorageMode.ok st L c).2.cache ∧
    (registerImageLeader StorageMode.throwing st L c).2.store = st.store ∧
    (registerImageLeader StorageMode.unavailable st L c).2.store =
      st.store ∧
    ((registerImageLeader StorageMode.ok st L c).1 = true →
      ((registerImageLeader StorageMode.throwing st L c).2.registry L
        ).isSome = true) ∧
    (∀ (L2 : String) (s2 : Option String),
      getImagePath (registerImageLeader StorageMode.throwing st L c
          ).2.registry
        (registerImageLeader StorageMode.throwing st L c).2.cache L2 s2 =
      getImagePath (registerImageLeader StorageMode.ok st L c).2.registry
        (registerImageLeader StorageMode.ok st L c).2.cache L2 s2) ∧
    (∀ L2 : String,
      isImageLeader (registerImageLeader StorageMode.throwing st L c
          ).2.registry L2 =
      isImageLeader (registerImageLeader StorageMode.ok st L c
          ).2.registry L2) := by
  cases hv : registerValidate L c with
  | none => simp [registerImageLeader, hv]
  | some stored => simp [registerImageLeader, persistSharedRegistry, hv]

/-- Witness for C9: after a registration whose persist throws, the entry
is present in the in-memory registry. -/
theorem C9_persistence_failure_isolated_witness :
    ((registerImageLeader StorageMode.throwing emptyState "LEADER_W"
      (JsConfig.jstr "w/x.png")).2.registry "LEADER_W").isSome = true :=
  (C9_persistence_failure_isolated emptyState "LEADER_W"
    (JsConfig.jstr "w/x.png")).2.2.2.2.2.2.1 rfl

/-- Persisting never changes the in-memory registry. -/
theorem persist_registry (mode : StorageMode) (st : SysState) :
    (persistSharedRegistry mode st).registry = st.registry := by
  cases mode <;> rfl

/-- Persisting never changes the inference cache. -/
theorem persist_cache (mode : StorageMode) (st : SysState) :
    (persistSharedRegistry mode st).cache = st.cache := by
  cases mode <;> rfl

/-- C7 is refuted at a concrete scenario: after "LEADER_C" is
re-registered with base path "c/d.png", the cache entry populated under
the old base path "a/b.png" makes the cache hit return "a/b_angry.png",
while recomputation on a cache miss under the same registry returns
"c/d_angry.png". -/
theorem C7_stale_cache_counterexample :
    (getImagePath staleC2.registry staleC2.cache "LEADER_C"
      (some "hostile")).1 = some "a/b_angry.png" ∧
    (getImagePath staleC2.registry (fun _ => none) "LEADER_C"
      (some "hostile")).1 = some "c/d_angry.png" ∧
    staleC2.cache ("LEADER_C" ++ "_" ++ "hostile") = some "a/b_angry.png" ∧
    (tryInferStatePath staleC2.registry staleC2.cache "LEADER_C"
      (some "c/d.png") "hostile").1 = some "a/b_angry.png" ∧
    (tryInferStatePath staleC2.registry (fun _ => none) "LEADER_C"
      (some "c/d.png") "hostile").1 = some "c/d_angry.png" ∧
    some "a/b_angry.png" ≠ some "c/d_angry.png" := by decide

/-- C7 (amended): calling `getImagePath` twice in a row with no
intervening registration yields the same result and the same cache — the
cache changes only the cost of such repeated resolution; however a cache
hit only reproduces the answer computed when the entry was populated, so
after an intervening re-registration that changes the leader's base path
or auto-infer flag, a hit can differ from fresh recomputation under the
registry at call time. -/
theorem C7_resolution_idempotent (reg : Registry) (cache : Cache)
    (L : String) (st : Option String) :
    getImagePath reg ((getImagePath reg cache L st).2) L st =
      getImagePath reg cache L st := by
  by_cases hil : isImageLeader reg L = false
  · simp [getImagePath, hil]
  · cases hr : reg L with
    | none => simp [getImagePath, hil, hr]
    | some cfg =>
      cases st with
      | none => simp [getImagePath, hil, hr]
      | some s =>
        by_cases hs : s = ""
        · simp [getImagePath, hil, hr, hs]
        · have hil2 : isImageLeader reg L = true := by
            cases hb : isImageLeader reg L with
            | false => exact absurd hb hil
            | true => rfl
          simp only [getImagePath, hil2, hr, if_neg hs,
            Bool.true_eq_false, if_false]
          exact walk_idem reg L cfg _ (chainOf s) (chainOf_nodup s) cache

/-- C4 is refuted at a concrete scenario: "LEADER_A" is re-registered
with `autoInferPaths: false`, yet a cache entry populated before the
re-registration makes `tryInferStatePath` return an inferred variant, and
`getImagePath` returns that inference-derived path even though the config
has no explicit states and the base path differs. -/
theorem C4_disabled_infer_counterexample :
    (staleA2.registry "LEADER_A").map StoredConfig.autoInferPaths
      = some (some false) ∧
    (tryInferStatePath staleA2.registry staleA2.cache "LEADER_A"
      (some "d/p.png") "hostile").1 = some "d/p_angry.png" ∧
    (getImagePath staleA2.registry staleA2.cache "LEADER_A"
      (some "hostile")).1 = some "d/p_angry.png" ∧
    (staleA2.registry "LEADER_A").bind StoredConfig.diplomacyStates
      = none ∧
    (staleA2.registry "LEADER_A").map StoredConfig.imagePath
      = some "d/p.png" ∧
    ("d/p_angry.png" : String) ≠ "d/p.png" := by decide

/-- C4 (amended): for a leader whose registered config has
`autoInferPaths === false`, the inference engine returns absent for every
state whose `(leader, state)` cache key is unpopulated; in particular,
with no populated cache entries for the leader, resolution returns the
first explicitly configured path along the fallback chain, or the base
path — never a freshly inferred variant. Only a cache entry populated
before the flag was set (or a colliding key) can still surface an
inferred path. -/
theorem C4_disabled_infer_amended (reg : Registry) (cache : Cache)
    (L : String) (cfg : StoredConfig) (bp : Option String) (s s2 : String)
    (hreg : reg L = some cfg) (hf : cfg.autoInferPaths = some false)
    (hcache : ∀ t, cache (L ++ "_" ++ t) = none)
    (h1 : L ≠ "") (h2 : L ≠ "RANDOM") (h4 : s2 ≠ "") :
    (tryInferStatePath reg cache L bp s).1 = none ∧
    (getImagePath reg cache L (some s2)).1 =
      (match (chainOf s2).findSome? (explicitHit cfg) with
       | some p => some p
       | none =>
         if cfg.imagePath = "" then none else some cfg.imagePath) := by
  constructor
  · exact tryInfer_disabled reg cache L bp s cfg hreg hf (hcache s)
  · rw [getImagePath_registered reg cache L cfg s2 h1 h2 hreg h4,
      walk_fst]
    have hlh : ∀ t, linkHit reg cache L cfg
        (if cfg.imagePath = "" then none else some cfg.imagePath) t =
        explicitHit cfg t := by
      intro t
      unfold linkHit
      cases he : explicitHit cfg t with
      | some p => rfl
      | none =>
        show (tryInferStatePath reg cache L
          (if cfg.imagePath = "" then none else some cfg.imagePath) t).1
          = none
        exact tryInfer_disabled reg cache L _ t cfg hreg hf (hcache t)
    unfold firstHitOr
    rw [funext hlh]

/-- Witness for the amended C4 at a concrete disabled leader with an
empty cache. -/
theorem C4_disabled_infer_amended_witness :
    (tryInferStatePath zDisabledReg (fun _ => none) "LEADER_Z"
      (some "z/p.png") "hostile").1 = none ∧
    (getImagePath zDisabledReg (fun _ => none) "LEADER_Z"
      (some "hostile")).1 = some "z/p.png" := by
  have h := C4_disabled_infer_amended zDisabledReg (fun _ => none)
    "LEADER_Z"
    { imagePath := "z/p.png", autoInferPaths := some false,
      diplomacyStates := none, displayOverrides := none }
    (some "z/p.png") "hostile" "hostile" rfl rfl (fun t => rfl)
    (by decide) (by decide) (by decide)
  refine ⟨h.1, ?_⟩
  rw [h.2]
  decide

/-- C5 is refuted at a concrete registration: the unrecognized
`diplomacyStates` key "weird_state" is kept in the stored config (and is
even served by `getImagePath` for the matching query state), although the
registration does succeed. -/
theorem C5_unrecognized_key_counterexample :
    "weird_state" ∉ validStates ∧
    (registerImageLeader StorageMode.ok emptyState "LEADER_B"
      weirdKeyConfig).1 = true ∧
    ((weirdKeyState.registry "LEADER_B").bind
      StoredConfig.diplomacyStates).bind (List.lookup "weird_state")
      = some "w.png" ∧
    (getImagePath weirdKeyState.registry weirdKeyState.cache "LEADER_B"
      (some "weird_state")).1 = some "w.png" := by decide

/-- C5 (amended): a `diplomacyStates` key outside the ten recognized
state names, or a `displayOverrides` key outside the recognized panel
names, is logged and skipped by validation but retained unchanged in the
stored registered config, and the registration as a whole still succeeds
(register returns true). -/
theorem C5_unrecognized_key_retained (mode : StorageMode) (st : SysState)
    (L ip : String) (aip : Option Bool) (ds : List (String × String))
    (ovl : List (String × PanelVal)) (k v k2 : String) (pv : PanelVal)
    (h1 : L ≠ "") (h2 : L ≠ "RANDOM") (hip : ip ≠ "")
    (hk : k ∉ validStates) (hv : List.lookup k ds = some v)
    (hk2 : k2 ∉ validPanels) (hpv : List.lookup k2 ovl = some pv) :
    (registerImageLeader mode st L (JsConfig.jobj
      { imagePath := some (ImgVal.istr ip), autoInferPaths := aip,
        diplomacyStates := some (DSVal.dsObj ds),
        displayOverrides := some (DOVal.doObj ovl) })).1 = true ∧
    (((registerImageLeader mode st L (JsConfig.jobj
      { imagePath := some (ImgVal.istr ip), autoInferPaths := aip,
        diplomacyStates := some (DSVal.dsObj ds),
        displayOverrides := some (DOVal.doObj ovl) })).2.registry L).bind
      StoredConfig.diplomacyStates).bind (List.lookup k) = some v ∧
    (((registerImageLeader mode st L (JsConfig.jobj
      { imagePath := some (ImgVal.istr ip), autoInferPaths := aip,
        diplomacyStates := some (DSVal.dsObj ds),
        displayOverrides := some (DOVal.doObj ovl) })).2.registry L).bind
      StoredConfig.displayOverrides).bind (List.lookup k2) = some pv := by
  have hL : ¬(L = "" ∨ L = "RANDOM") := fun hor => hor.elim h1 h2
  have hval : registerValidate L (JsConfig.jobj
      { imagePath := some (ImgVal.istr ip), autoInferPaths := aip,
        diplomacyStates := some (DSVal.dsObj ds),
        displayOverrides := some (DOVal.doObj ovl) }) =
      some { imagePath := ip, autoInferPaths := aip,
             diplomacyStates := some (normStates ds),
             displayOverrides := some (normOverrides ovl) } := by
    simp [registerValidate, hL, validateObj, hip]
  refine ⟨?_, ?_, ?_⟩
  · simp [registerImageLeader, hval]
  · simp only [registerImageLeader, hval, persist_registry]
    simp [lookup_normStates k hk ds, hv]
  · simp only [registerImageLeader, hval, persist_registry]
    simp [lookup_normOverrides k2 hk2 ovl, hpv]

/-- Witness for the amended C5: one registration carrying an
unrecognized state key and an unrecognized panel key, both retained. -/
theorem C5_unrecognized_key_retained_witness :
    (registerImageLeader StorageMode.ok emptyState "LEADER_B2"
      (JsConfig.jobj
        { imagePath := some (ImgVal.istr "b/p.png"),
          autoInferPaths := none,
          diplomacyStates := some (DSVal.dsObj [("weird_state", "w.png")]),
          displayOverrides :=
            some (DOVal.doObj [("weird-panel", PanelVal.pNotObj)]) })).1
      = true ∧
    (((registerImageLeader StorageMode.ok emptyState "LEADER_B2"
      (JsConfig.jobj
        { imagePath := some (ImgVal.istr "b/p.png"),
          autoInferPaths := none,
          diplomacyStates := some (DSVal.dsObj [("weird_state", "w.png")]),
          displayOverrides :=
            some (DOVal.doObj [("weird-panel", PanelVal.pNotObj)]) })
      ).2.registry "LEADER_B2").bind
      StoredConfig.diplomacyStates).bind (List.lookup "weird_state")
      = some "w.png" ∧
    (((registerImageLeader StorageMode.ok emptyState "LEADER_B2"
      (JsConfig.jobj
        { imagePath := some (ImgVal.istr "b/p.png"),
          autoInferPaths := none,
          diplomacyStates := some (DSVal.dsObj [("weird_state", "w.png")]),
          displayOverrides :=
            some (DOVal.doObj [("weird-panel", PanelVal.pNotObj)]) })
      ).2.registry "LEADER_B2").bind
      StoredConfig.displayOverrides).bind (List.lookup "weird-panel")
      = some PanelVal.pNotObj :=
  C5_unrecognized_key_retained StorageMode.ok emptyState "LEADER_B2"
    "b/p.png" none [("weird_state", "w.png")]
    [("weird-panel", PanelVal.pNotObj)] "weird_state" "w.png"
    "weird-panel" PanelVal.pNotObj (by decide) (by decide) (by decide)
    (by decide) (by decide) (by decide) (by decide)

end LeaderConfig
